import Mathlib

/-!
Verification of the VOS container-directory subsystem (vos/vos_container.c).

The C file implements, over an external ordered btree engine (dbtree) and a
persistent-memory allocator (umem/pmemobj), a durable directory mapping
container UUIDs to container records, a record-lifecycle plugin (hkey
generation, allocate-on-insert, free-on-delete, fetch, update), the container
lifecycle operations (create/open/close/query/destroy) backed by an in-memory
handle cache, and a directory iterator.

This file shallow-embeds the C functions as Lean functions over explicit
state.  External collaborators (the btree engine, the allocator's transaction
machinery, the object-index initializer/finalizer, the handle cache) are
embedded as explicit state transformers or, where the collaborator's outcome
is opaque to the caller, as parameters carrying that outcome.
-/

namespace VosC

/-! ## Error codes

Values come from daos_errno.h, which is outside this file; only their
distinctness and sign are relied upon. -/

def DER_NO_PERM : Int := -1001
def DER_INVAL : Int := -1003
def DER_EXIST : Int := -1004
def DER_NONEXIST : Int := -1005
def DER_NOSPACE : Int := -1007
def DER_NOMEM : Int := -1010
def DER_BUSY : Int := -1012
def DER_MISC : Int := -1025

/-- C errno values used as transaction abort causes in the source. -/
def ENOMEM : Nat := 12

def EFAULT : Nat := 14

/-! ## Identifiers and records -/

/-- A container identifier: the raw bytes of a uuid_t / struct daos_uuid
(16 bytes). -/
abbrev UUID := List Nat

/-- sizeof(struct daos_uuid): the fixed identifier size in bytes. -/
def daos_uuid_size : Nat := 16

/-- uuid_clear: the all-zero UUID. -/
def zeroUUID : UUID := List.replicate daos_uuid_size 0

/-- The durable value type of the directory: struct vos_container.
vc_obtable is the durable address (TMMID) of the owned object index,
0 standing for TMMID_NULL.  vc_info abstracts the opaque metadata block. -/
structure VosContainer where
  vc_id : UUID
  vc_obtable : Nat
  vc_info : Nat
deriving Repr, DecidableEq

/-- A btree record slot (struct btr_record): its rec_mmid field holds the
durable address of the record payload, 0 standing for a null mmid. -/
structure BtrRecord where
  rec_mmid : Nat
deriving Repr, DecidableEq

/-- struct vc_val_buf: the wrapper buffer through which the plugin hands
direct pointers back to callers.  Pointers are represented by durable
addresses; vc_vpool abstracts the pool pointer. -/
structure VcValBuf where
  vc_co : Nat
  vc_vpool : Nat
deriving Repr, DecidableEq

/-- sizeof(struct vc_val_buf): two 8-byte pointers. -/
def sizeof_vc_val_buf : Nat := 16

/-! ## Key digest (vc_hkey_gen, vc_hkey_size)

vc_hkey_gen has no error return in C; its only guard is
D_ASSERT(key_iov->iov_len == sizeof(struct daos_uuid)).  The outcome type
below makes the two cases explicit: a digest is produced, or the assertion
is violated and no digest is produced.  The violated-assertion outcome is
the malformed-key-size condition that the spec's error taxonomy classifies
under InvalidArgument (kinds, not literal codes). -/

inductive HkeyGenResult where
  | digest (bytes : List Nat)
  | invalidKeySize
deriving Repr, DecidableEq

/-- vc_hkey_size: the digest buffer size is sizeof(struct daos_uuid). -/
def vc_hkey_size : Nat := daos_uuid_size

/-- vc_hkey_gen: assert the key length equals sizeof(struct daos_uuid),
then memcpy the key bytes into the digest buffer unchanged. -/
def vc_hkey_gen (key : List Nat) : HkeyGenResult :=
  if key.length = daos_uuid_size then .digest key else .invalidKeySize

/-! ## Record fetch (vc_rec_fetch) -/

/-- vc_rec_fetch: store the direct pointer to the durable record into the
caller's vc_val_buf (vc_val_buf->vc_co = umem_id2ptr(rec->rec_mmid)), set
the value iov length to sizeof(struct vc_val_buf), and return 0.  The
record's contents are not read, let alone copied. -/
def vc_rec_fetch (rec : BtrRecord) (buf : VcValBuf) : Int × VcValBuf × Nat :=
  (0, { buf with vc_co := rec.rec_mmid }, sizeof_vc_val_buf)

/-- vc_rec_update: the update-on-existing-key callback is a no-op returning
success. -/
def vc_rec_update : Int := 0

/-! ## Iterator fetch (vos_co_iter_fetch)

The call into the btree engine (dbtree_iter_fetch) is an external
collaborator; its outcome is a parameter: either an error code, or the
fetched record's stored identifier (vc_val_buf.vc_co->vc_id, copied on
success). -/

/-- The part of vos_iter_entry_t this file touches: the container uuid.
ie_couuid may hold stale caller data on entry. -/
structure VosIterEntry where
  ie_couuid : UUID
deriving Repr, DecidableEq

/-- vos_co_iter_fetch: first uuid_clear(it_entry->ie_couuid), then call
dbtree_iter_fetch; on error return its code (the entry stays cleared), on
success uuid_copy the fetched record's identifier into the entry. -/
def vos_co_iter_fetch (fetched : Except Int UUID) (entry : VosIterEntry) :
    Int × VosIterEntry :=
  let cleared : VosIterEntry := { entry with ie_couuid := zeroUUID }
  match fetched with
  | .error rc => (rc, cleared)
  | .ok vcId => (0, { cleared with ie_couuid := vcId })

/-! ## Durable heap (umem allocator)

Durable memory is a pair of allocation tables: container records
(typed TMMID allocations of struct vos_container) and object-index blocks
(typed TMMID allocations of struct vos_object_index, contents opaque).
Addresses are positive naturals; 0 is the null TMMID.  The finalized field
logs the object-index addresses on which the external finalizer
vos_oi_destroy has run, so that theorems can talk about finalizer
invocation. -/

structure UmemHeap where
  contRecs : List (Nat × VosContainer)
  obIndexes : List Nat
  finalized : List Nat
  nextAddr : Nat
deriving Repr, DecidableEq

/-- Dereference a container-record TMMID (umem_id2ptr_typed). -/
def heapLookup (h : UmemHeap) (a : Nat) : Option VosContainer :=
  (h.contRecs.find? (fun p => p.1 = a)).map Prod.snd

/-- umem_free_typed on a container record. -/
def heapFreeRec (h : UmemHeap) (a : Nat) : UmemHeap :=
  { h with contRecs := h.contRecs.filter (fun p => p.1 ≠ a) }

/-- umem_free_typed on an object-index block. -/
def heapFreeOb (h : UmemHeap) (a : Nat) : UmemHeap :=
  { h with obIndexes := h.obIndexes.filter (fun b => b ≠ a) }

/-- umem_znew_typed for struct vos_container: a fresh address holding a
zero-initialized record. -/
def heapAllocRec (h : UmemHeap) : Nat × UmemHeap :=
  (h.nextAddr,
   { h with contRecs := (h.nextAddr, ⟨zeroUUID, 0, 0⟩) :: h.contRecs,
            nextAddr := h.nextAddr + 1 })

/-- umem_znew_typed for struct vos_object_index: a fresh opaque block. -/
def heapAllocOb (h : UmemHeap) : Nat × UmemHeap :=
  (h.nextAddr,
   { h with obIndexes := h.nextAddr :: h.obIndexes, nextAddr := h.nextAddr + 1 })

/-- Store through a container-record pointer (field writes after
umem_id2ptr_typed). -/
def heapSetRec (h : UmemHeap) (a : Nat) (c : VosContainer) : UmemHeap :=
  { h with contRecs := h.contRecs.map (fun p => if p.1 = a then (a, c) else p) }

/-! ## Free-on-delete (vc_rec_free) -/

/-- vc_rec_free: convert rec->rec_mmid to a typed container TMMID; if it is
null, fail with -DER_NONEXIST.  Otherwise dereference it and, when the
record's vc_obtable TMMID is not null, umem_free the object-index block,
then umem_free the record itself.  (A non-null address absent from the
heap would be a wild pointer in C; the model leaves the heap unchanged on
that branch, which no theorem exercises.)  Note the function never invokes
the object-index finalizer vos_oi_destroy. -/
def vc_rec_free (h : UmemHeap) (rec : BtrRecord) : Int × UmemHeap :=
  if rec.rec_mmid = 0 then (DER_NONEXIST, h)
  else
    match heapLookup h rec.rec_mmid with
    | none => (0, h)
    | some c =>
      let h1 := if c.vc_obtable ≠ 0 then heapFreeOb h c.vc_obtable else h
      (0, heapFreeRec h1 rec.rec_mmid)

/-! ## Allocate-on-insert (vc_rec_alloc)

Failures of the external collaborators are injected through AllocFaults:
the two umem_znew_typed calls may return TMMID_NULL, and vos_oi_create
(the object-index initializer, implemented elsewhere) may return a nonzero
code. -/

structure AllocFaults where
  recAllocFails : Bool
  obAllocFails : Bool
  oiCreateRc : Int
deriving Repr, DecidableEq

/-- The outcome of vc_rec_alloc: the return code, the heap after the call,
the btr_record slot after the call (the callback writes rec->rec_mmid only
on success), and the caller's vc_val_buf (whose vc_co pointer the callback
sets as soon as the record exists). -/
structure AllocResult where
  rc : Int
  heap : UmemHeap
  recSlot : BtrRecord
  valbuf : VcValBuf
deriving Repr, DecidableEq

/-- vc_rec_alloc, translated line by line:
umem_znew_typed a container record (null → return -DER_NOMEM with nothing
allocated); uuid_copy the key in and publish the direct pointer in
vc_val_buf->vc_co; umem_znew_typed the object-index block into
vc_rec->vc_obtable (null → rc = -DER_NOMEM, goto exit); run vos_oi_create
(nonzero → goto exit); on success set rec->rec_mmid to the record's TMMID.
The exit path, when rc is nonzero, calls vc_rec_free(tins, rec, NULL) on
the caller's record slot — whose rec_mmid was never assigned on these
paths — and discards its return value. -/
def vc_rec_alloc (f : AllocFaults) (h : UmemHeap) (key : UUID)
    (rec : BtrRecord) (vb : VcValBuf) : AllocResult :=
  if f.recAllocFails then ⟨DER_NOMEM, h, rec, vb⟩
  else
    let a1 := (heapAllocRec h).1
    let h1 := (heapAllocRec h).2
    let h2 := heapSetRec h1 a1 ⟨key, 0, 0⟩
    let vb1 : VcValBuf := { vb with vc_co := a1 }
    if f.obAllocFails then
      ⟨DER_NOMEM, (vc_rec_free h2 rec).2, rec, vb1⟩
    else
      let a2 := (heapAllocOb h2).1
      let h3 := (heapAllocOb h2).2
      let h4 := heapSetRec h3 a1 ⟨key, a2, 0⟩
      if f.oiCreateRc ≠ 0 then
        ⟨f.oiCreateRc, (vc_rec_free h4 rec).2, rec, vb1⟩
      else
        ⟨0, h4, { rec with rec_mmid := a1 }, vb1⟩

/-! ## Directory, handle cache, pool state -/

/-- The durable container directory (the dbtree keyed by the uuid digest):
identifier to container-record address. -/
abbrev Dir := List (UUID × Nat)

def dirLookup (d : Dir) (k : UUID) : Option Nat :=
  (d.find? (fun p => p.1 = k)).map Prod.snd

/-- The in-memory handle cache (the uuid hash of struct vc_hdl):
identifier to the handle's reference count. -/
abbrev Cache := List (UUID × Nat)

/-- Take a reference on the cached handle for k. -/
def cacheIncr (c : Cache) (k : UUID) : Cache :=
  c.map (fun p => if p.1 = k then (p.1, p.2 + 1) else p)

/-- vos_co_lookup_handle (vos_hhash.c, outside src; Modelled from the spec:
cache lookup returns a new reference — incremented refcount — to the
matching handle if present, else NotFound). -/
def cacheLookup (c : Cache) (k : UUID) : Option Cache :=
  if (c.find? (fun p => p.1 = k)).isSome then some (cacheIncr c k) else none

/-- vos_co_putref_handle (outside src; Modelled from the spec: release
decrements the reference count; teardown at zero may be deferred). -/
def cachePutref (c : Cache) (k : UUID) : Cache :=
  c.map (fun p => if p.1 = k then (p.1, p.2 - 1) else p)

/-- The reference count the cache holds for k (0 when absent). -/
def cacheRef (c : Cache) (k : UUID) : Nat :=
  ((c.find? (fun p => p.1 = k)).map Prod.snd).getD 0

/-- The whole pool-visible state a lifecycle operation touches: the handle
cache (in-memory), the durable directory, and the durable heap. -/
structure VosState where
  cache : Cache
  dir : Dir
  heap : UmemHeap
deriving Repr, DecidableEq

/-! ## The ordered-map engine (dbtree), modelled from the spec

The btree engine lives in common code outside src; the spec describes it
as an ordered map whose lookup, insert and delete run the registered
record-lifecycle callbacks.  The callbacks themselves (vc_rec_fetch,
vc_rec_alloc, vc_rec_free, vc_rec_update above) are translated from the
source. -/

/-- vos_co_tree_lookup: dbtree_lookup on the container index.  Modelled
from the spec: a present key runs the fetch callback into the caller's
vc_val_buf; a missing key fails with NotFound. -/
def vos_co_tree_lookup (d : Dir) (k : UUID) (vb : VcValBuf) : Int × VcValBuf :=
  match dirLookup d k with
  | some a => ((vc_rec_fetch ⟨a⟩ vb).1, (vc_rec_fetch ⟨a⟩ vb).2.1)
  | none => (DER_NONEXIST, vb)

/-- dbtree_update.  Modelled from the spec: a missing key allocates a
record through the registered allocate-on-insert callback on a fresh
record slot (its rec_mmid not yet set, i.e. null) and, on callback
success, stores the entry; callback failure propagates and the map
retains no entry for the key.  A present key runs the no-op
update-on-existing-key callback. -/
def dbtree_update (f : AllocFaults) (d : Dir) (h : UmemHeap) (k : UUID)
    (vb : VcValBuf) : Int × Dir × UmemHeap :=
  match dirLookup d k with
  | some _ => (vc_rec_update, d, h)
  | none =>
    let r := vc_rec_alloc f h k ⟨0⟩ vb
    if r.rc ≠ 0 then (r.rc, d, r.heap)
    else (0, (k, r.recSlot.rec_mmid) :: d, r.heap)

/-- dbtree_delete.  Modelled from the spec: a present key has its entry
removed and the free-on-delete callback run on its record; a missing key
fails with NotFound. -/
def dbtree_delete (d : Dir) (h : UmemHeap) (k : UUID) : Int × Dir × UmemHeap :=
  match dirLookup d k with
  | none => (DER_NONEXIST, d, h)
  | some a =>
    ((vc_rec_free h ⟨a⟩).1, d.filter (fun p => p.1 ≠ k), (vc_rec_free h ⟨a⟩).2)

/-! ## Transaction abort translation, modelled from the spec -/

/-- daos_errno2der (declared outside src).  Modelled from the spec: the
OutOfMemory cause (ENOMEM) translates to the OutOfMemory error code; the
remaining causes map to other codes, none of which this file relies on. -/
def daos_errno2der (errno : Nat) : Int :=
  if errno = ENOMEM then DER_NOMEM
  else if errno = EFAULT then DER_NO_PERM
  else DER_MISC

/-- umem_tx_errno (daos/mem.h, outside src).  Modelled from the spec: the
abort path translates the abort cause into an error code, so the model
takes the transaction's recorded abort cause; the C-level rc variable the
macro body happens to receive is superseded by the translation. -/
def umem_tx_errno (abortCause : Nat) (_rc : Int) : Int :=
  daos_errno2der abortCause

/-- vos_oi_destroy, the nested-index finalizer (vos_obj_index.c, outside
src).  Modelled from the spec: invoked inside the surrounding transaction,
it may fail; on success the object index at the given address is
finalized, which the model records in the heap's finalized log. -/
def vos_oi_destroy (oiDestroyRc : Int) (h : UmemHeap) (oiAddr : Nat) :
    Int × UmemHeap :=
  if oiDestroyRc ≠ 0 then (oiDestroyRc, h)
  else (0, { h with finalized := oiAddr :: h.finalized })

/-! ## Lifecycle operations -/

/-- vos_co_create: look the identifier up in the directory — success means
the container exists, so fail with -DER_EXIST before any transaction.
Otherwise TX_BEGIN; dbtree_update the entry; a nonzero update rc runs
pmemobj_tx_abort(ENOMEM), discarding every durable write since begin, and
TX_ONABORT leaves rc = umem_tx_errno applied after the abort.  The handle
cache is never consulted or changed. -/
def vos_co_create (f : AllocFaults) (st : VosState) (id : UUID) :
    Int × VosState :=
  let s0 : VcValBuf := ⟨0, 1⟩
  if (vos_co_tree_lookup st.dir id s0).1 = 0 then (DER_EXIST, st)
  else
    let u := dbtree_update f st.dir st.heap id s0
    if u.1 ≠ 0 then (umem_tx_errno ENOMEM u.1, st)
    else (0, { st with dir := u.2.1, heap := u.2.2 })

/-- Collaborator outcomes vos_co_open depends on after a cache miss:
D_ALLOC_PTR of the handle, dbtree_open_inplace on the record's object
table, and vos_co_insert_handle into the uuid hash. -/
structure OpenFaults where
  allocFails : Bool
  btrOpenRc : Int
  insertRc : Int
deriving Repr, DecidableEq

/-- vos_co_open: a handle-cache hit returns the existing handle (here
identified by its uuid) at once, the lookup having taken a reference; no
durable-map access happens.  A miss looks the identifier up in the
directory (NotFound surfaces), builds a handle, opens the object table,
and inserts the handle into the cache with one reference; any late
failure tears the partial handle down and surfaces the error. -/
def vos_co_open (f : OpenFaults) (st : VosState) (id : UUID) :
    Int × Option UUID × VosState :=
  match cacheLookup st.cache id with
  | some c1 => (0, some id, { st with cache := c1 })
  | none =>
    let look := vos_co_tree_lookup st.dir id ⟨0, 1⟩
    if look.1 ≠ 0 then (look.1, none, st)
    else if f.allocFails then (DER_NOSPACE, none, st)
    else if f.btrOpenRc ≠ 0 then (f.btrOpenRc, none, st)
    else if f.insertRc ≠ 0 then (f.insertRc, none, st)
    else (0, some id, { st with cache := (id, 1) :: st.cache })

/-- vos_co_destroy: a handle-cache lookup outcome other than -DER_NONEXIST
means an open reference exists — the reference the lookup took is put back
and the call fails with -DER_BUSY.  With no cached handle, a directory
lookup miss propagates (NotFound).  Otherwise TX_BEGIN; run the
nested-index finalizer on the record's object table (failure runs
pmemobj_tx_abort(EFAULT), rolling every durable write back); then
dbtree_delete the entry, triggering the free-on-delete callback. -/
def vos_co_destroy (oiDestroyRc : Int) (st : VosState) (id : UUID) :
    Int × VosState :=
  match cacheLookup st.cache id with
  | some c1 => (DER_BUSY, { st with cache := cachePutref c1 id })
  | none =>
    let look := vos_co_tree_lookup st.dir id ⟨0, 1⟩
    if look.1 ≠ 0 then (look.1, st)
    else
      let a := look.2.vc_co
      let oiAddr := ((heapLookup st.heap a).map (fun c => c.vc_obtable)).getD 0
      let od := vos_oi_destroy oiDestroyRc st.heap oiAddr
      if od.1 ≠ 0 then (umem_tx_errno EFAULT od.1, st)
      else
        let del := dbtree_delete st.dir od.2 id
        (del.1, { st with dir := del.2.1, heap := del.2.2 })

/-! ## Iterator probe -/

/-- The two probe opcodes vos_co_iter_probe selects between. -/
inductive ProbeOpc where
  | first
  | ge
deriving Repr, DecidableEq

/-- dbtree_iter_probe (btree engine, outside src).  Modelled from the
spec: the directory's entries are enumerated in the map's key order, a
key digest abstracted as the natural number its fixed-size bytes denote
big-endian (memcmp order on equal-length byte strings is numeric order of
that denotation).  BTR_PROBE_FIRST positions the cursor on the first
entry; BTR_PROBE_GE positions it on the first entry whose key is
greater-than-or-equal to the anchor; when no entry qualifies the probe
yields no position. -/
def dbtree_iter_probe (keys : List Nat) (opc : ProbeOpc)
    (anchor : Option Nat) : Option Nat :=
  match opc, anchor with
  | .first, _ => if keys.length = 0 then none else some 0
  | .ge, some a =>
    if keys.findIdx (fun k => a ≤ k) < keys.length
    then some (keys.findIdx (fun k => a ≤ k)) else none
  | .ge, none => none

/-- vos_co_iter_probe: opc = anchor == NULL ? BTR_PROBE_FIRST :
BTR_PROBE_GE, then dbtree_iter_probe with that opcode and the anchor. -/
def vos_co_iter_probe (keys : List Nat) (anchor : Option Nat) : Option Nat :=
  dbtree_iter_probe keys (if anchor.isNone then .first else .ge) anchor

/-! ## Theorems for the simple plugin callbacks -/

/-- Claim C5: for every key, the digest produced by the key-digest operation
is the identifier's raw bytes copied as-is, and a key whose size differs
from the fixed identifier size yields the malformed-key-size failure
(the spec's InvalidArgument condition) and no digest. -/
theorem c5_hkey_gen_identity_or_invalid (key : List Nat) :
    (key.length = daos_uuid_size → vc_hkey_gen key = .digest key) ∧
    (key.length ≠ daos_uuid_size →
      vc_hkey_gen key = .invalidKeySize ∧
      ∀ bytes, vc_hkey_gen key ≠ .digest bytes) := by
  constructor
  · intro h
    simp [vc_hkey_gen, h]
  · intro h
    simp [vc_hkey_gen, h]

/-- Witness for C5 at concrete inputs: a 16-byte key digests to itself, a
3-byte key fails with the malformed-size condition. -/
theorem c5_hkey_gen_witness :
    (List.replicate 16 7).length = daos_uuid_size ∧
    vc_hkey_gen (List.replicate 16 7) = .digest (List.replicate 16 7) ∧
    [1, 2, 3].length ≠ daos_uuid_size ∧
    vc_hkey_gen [1, 2, 3] = .invalidKeySize := by
  refine ⟨by decide, ?_, by decide, ?_⟩
  · exact (c5_hkey_gen_identity_or_invalid (List.replicate 16 7)).1 (by decide)
  · exact ((c5_hkey_gen_identity_or_invalid [1, 2, 3]).2 (by decide)).1

/-- Claim C9: the fetch callback is total: for every record and caller
buffer it returns success, stores the direct durable address of the
ContainerRecord into the view buffer (no copy of the record's contents),
leaves the buffer's pool pointer alone, and reports the view-structure
size as the value length. -/
theorem c9_rec_fetch_total (rec : BtrRecord) (buf : VcValBuf) :
    (vc_rec_fetch rec buf).1 = 0 ∧
    (vc_rec_fetch rec buf).2.1.vc_co = rec.rec_mmid ∧
    (vc_rec_fetch rec buf).2.1.vc_vpool = buf.vc_vpool ∧
    (vc_rec_fetch rec buf).2.2 = sizeof_vc_val_buf := by
  exact ⟨rfl, rfl, rfl, rfl⟩

/-- Claim C10: iterator fetch clears the output entry's identifier before
consulting the map, so whatever error the underlying fetch returns
(end of sequence included), and whatever stale identifier the entry held,
the caller sees the zero UUID and the error code unchanged. -/
theorem c10_iter_fetch_clears_on_failure (rc : Int) (entry : VosIterEntry) :
    vos_co_iter_fetch (.error rc) entry = (rc, ⟨zeroUUID⟩) := by
  rfl

/-! ## Helper lemmas on the cache and association lists -/

theorem find?_keyEq_filter_keyNe {α β : Type} [DecidableEq α]
    (l : List (α × β)) (a : α) :
    (l.filter (fun p => p.1 ≠ a)).find? (fun p => p.1 = a) = none := by
  rw [List.find?_eq_none]
  intro x hx
  have hmem := (List.mem_filter.mp hx).2
  simp only [decide_eq_true_eq] at hmem ⊢
  exact hmem

theorem cachePutref_cacheIncr (c : Cache) (k : UUID) :
    cachePutref (cacheIncr c k) k = c := by
  induction c with
  | nil => rfl
  | cons p t ih =>
    simp only [cacheIncr, cachePutref, List.map_cons] at ih ⊢
    by_cases h : p.1 = k
    · subst h
      simp [ih]
    · simp [h, ih]

theorem cacheLookup_eq_some {c c1 : Cache} {k : UUID}
    (h : cacheLookup c k = some c1) :
    c1 = cacheIncr c k ∧ (c.find? (fun p => p.1 = k)).isSome := by
  unfold cacheLookup at h
  by_cases hs : (c.find? (fun p => p.1 = k)).isSome
  · simp only [hs, if_pos, Option.some.injEq] at h
    exact ⟨h.symm, hs⟩
  · simp [hs] at h

theorem cacheRef_cacheIncr (c : Cache) (k : UUID)
    (hk : (c.find? (fun p => p.1 = k)).isSome) :
    cacheRef (cacheIncr c k) k = cacheRef c k + 1 := by
  induction c with
  | nil => simp [List.find?] at hk
  | cons p t ih =>
    by_cases h : p.1 = k
    · simp [cacheIncr, cacheRef, List.find?_cons, h]
    · have hk' : (t.find? (fun p => p.1 = k)).isSome := by
        rwa [List.find?_cons_of_neg _ (by simp [h])] at hk
      have step : cacheIncr (p :: t) k = p :: cacheIncr t k := by
        simp [cacheIncr, h]
      rw [step]
      unfold cacheRef at ih ⊢
      rw [List.find?_cons_of_neg _ (by simp [h]),
        List.find?_cons_of_neg _ (by simp [h])]
      exact ih hk'

/-! ## Claim theorems on the lifecycle operations -/

/-- Claim C1, evaluated at failing inputs: when allocate-on-insert fails
after its first durable allocation succeeded, it does propagate the
failure, but the cleanup call on the exit path frees through the record
slot's mmid — never assigned on a failure path — so the partially
allocated ContainerRecord (and, when the initializer failed, the
NestedIndex block too) remains allocated after the callback returns.
Scenario one: the object-table allocation fails on an empty heap; the
record allocated at address 1 survives.  Scenario two: the initializer
fails; the record at 1 and the object-table block at 2 both survive. -/
theorem c1_alloc_failure_retains_partial_allocation :
    (vc_rec_alloc ⟨false, true, 0⟩ ⟨[], [], [], 1⟩ (List.replicate 16 1)
        ⟨0⟩ ⟨0, 5⟩).rc = DER_NOMEM ∧
    (vc_rec_alloc ⟨false, true, 0⟩ ⟨[], [], [], 1⟩ (List.replicate 16 1)
        ⟨0⟩ ⟨0, 5⟩).heap.contRecs = [(1, ⟨List.replicate 16 1, 0, 0⟩)] ∧
    (vc_rec_alloc ⟨false, false, DER_INVAL⟩ ⟨[], [], [], 1⟩ (List.replicate 16 1)
        ⟨0⟩ ⟨0, 5⟩).rc = DER_INVAL ∧
    (vc_rec_alloc ⟨false, false, DER_INVAL⟩ ⟨[], [], [], 1⟩ (List.replicate 16 1)
        ⟨0⟩ ⟨0, 5⟩).heap.contRecs = [(1, ⟨List.replicate 16 1, 2, 0⟩)] ∧
    (vc_rec_alloc ⟨false, false, DER_INVAL⟩ ⟨[], [], [], 1⟩ (List.replicate 16 1)
        ⟨0⟩ ⟨0, 5⟩).heap.obIndexes = [2] := by
  decide

/-- Claim C3, refuted at a concrete input: running the free-on-delete
callback on a resolvable record whose object table sits at address 2
succeeds and releases both storages, yet the finalized log stays empty —
the callback invoked no nested-index finalizer. -/
theorem c3_rec_free_counterexample :
    (vc_rec_free ⟨[(1, ⟨List.replicate 16 3, 2, 0⟩)], [2], [], 3⟩ ⟨1⟩).1 = 0 ∧
    (vc_rec_free ⟨[(1, ⟨List.replicate 16 3, 2, 0⟩)], [2], [], 3⟩ ⟨1⟩).2
      = ⟨[], [], [], 3⟩ := by
  decide

/-- Claim C2: destroy fails with Busy when the handle-cache lookup for the
identifier succeeds, the reference the lookup took having been put back
(the whole state, cache included, is exactly as before); and it fails
with NotFound when the cache has no entry and the directory lookup
misses.  In both failure cases nothing durable is mutated. -/
theorem c2_destroy_busy_or_notfound (oiRc : Int) (st : VosState) (id : UUID) :
    (∀ c1, cacheLookup st.cache id = some c1 →
      vos_co_destroy oiRc st id = (DER_BUSY, st)) ∧
    (cacheLookup st.cache id = none → dirLookup st.dir id = none →
      vos_co_destroy oiRc st id = (DER_NONEXIST, st)) := by
  constructor
  · intro c1 hc
    obtain ⟨hc1, _⟩ := cacheLookup_eq_some hc
    subst hc1
    have hstep : vos_co_destroy oiRc st id
        = (DER_BUSY, { st with cache := cachePutref (cacheIncr st.cache id) id }) := by
      unfold vos_co_destroy
      rw [hc]
    rw [hstep, cachePutref_cacheIncr]
  · intro hc hd
    unfold vos_co_destroy
    rw [hc]
    simp only [vos_co_tree_lookup, hd]
    norm_num [DER_NONEXIST]

/-- Witness for C2: a state caching the identifier with one reference is
refused with Busy and left intact; an empty state is refused with
NotFound. -/
theorem c2_destroy_witness :
    vos_co_destroy 0 ⟨[(List.replicate 16 2, 1)], [], ⟨[], [], [], 1⟩⟩
        (List.replicate 16 2)
      = (DER_BUSY, ⟨[(List.replicate 16 2, 1)], [], ⟨[], [], [], 1⟩⟩) ∧
    vos_co_destroy 0 ⟨[], [], ⟨[], [], [], 1⟩⟩ (List.replicate 16 2)
      = (DER_NONEXIST, ⟨[], [], ⟨[], [], [], 1⟩⟩) := by
  constructor
  · exact (c2_destroy_busy_or_notfound 0 _ _).1
      [(List.replicate 16 2, 2)] (by decide)
  · exact (c2_destroy_busy_or_notfound 0 _ _).2 (by decide) (by decide)

/-- Unfolding lemma: the free-on-delete callback on a resolvable non-null
address frees the object-index block (when linked) and then the record. -/
theorem vc_rec_free_resolves {h : UmemHeap} {a : Nat} {c : VosContainer}
    (ha : a ≠ 0) (hc : heapLookup h a = some c) :
    vc_rec_free h ⟨a⟩
      = (0, heapFreeRec (if c.vc_obtable ≠ 0 then heapFreeOb h c.vc_obtable else h) a) := by
  unfold vc_rec_free
  dsimp only
  rw [if_neg ha, hc]

/-- Claim C3 (amended): the free-on-delete callback fails with NotFound on
a null address; on a resolvable address it succeeds, releasing the
NestedIndex's storage (when one is linked) and then the ContainerRecord's
storage, but it invokes no nested-index finalizer — the finalizer is run
by the destroy operation itself, before the directory delete that
triggers the callback, as the third part states. -/
theorem c3_free_on_delete_amended (h : UmemHeap) (a : Nat) (c : VosContainer)
    (st : VosState) (id : UUID) (addr : Nat) (cc : VosContainer) :
    (vc_rec_free h ⟨0⟩ = (DER_NONEXIST, h)) ∧
    (a ≠ 0 → heapLookup h a = some c →
      (vc_rec_free h ⟨a⟩).1 = 0 ∧
      heapLookup (vc_rec_free h ⟨a⟩).2 a = none ∧
      (c.vc_obtable ≠ 0 → c.vc_obtable ∉ (vc_rec_free h ⟨a⟩).2.obIndexes) ∧
      (vc_rec_free h ⟨a⟩).2.finalized = h.finalized) ∧
    (cacheLookup st.cache id = none → dirLookup st.dir id = some addr →
     addr ≠ 0 → heapLookup st.heap addr = some cc →
      (vos_co_destroy 0 st id).1 = 0 ∧
      cc.vc_obtable ∈ (vos_co_destroy 0 st id).2.heap.finalized ∧
      dirLookup (vos_co_destroy 0 st id).2.dir id = none) := by
  refine ⟨by unfold vc_rec_free; simp, ?_, ?_⟩
  · intro ha hc
    have hstep := vc_rec_free_resolves ha hc
    refine ⟨by rw [hstep], ?_, ?_, ?_⟩
    · rw [hstep]
      simp [heapLookup, heapFreeRec, find?_keyEq_filter_keyNe]
    · intro hob
      rw [hstep, if_pos hob]
      simp [heapFreeRec, heapFreeOb, List.mem_filter]
    · rw [hstep]
      split_ifs <;> simp [heapFreeRec, heapFreeOb]
  · intro hcache hdir haddr hheap
    have hheap' : heapLookup
        ⟨st.heap.contRecs, st.heap.obIndexes,
         cc.vc_obtable :: st.heap.finalized, st.heap.nextAddr⟩ addr
        = some cc := by
      simpa [heapLookup] using hheap
    have hd : vos_co_destroy 0 st id
        = (0, ⟨st.cache, st.dir.filter (fun p => p.1 ≠ id),
            heapFreeRec
              (if cc.vc_obtable ≠ 0
               then heapFreeOb ⟨st.heap.contRecs, st.heap.obIndexes,
                 cc.vc_obtable :: st.heap.finalized, st.heap.nextAddr⟩ cc.vc_obtable
               else ⟨st.heap.contRecs, st.heap.obIndexes,
                 cc.vc_obtable :: st.heap.finalized, st.heap.nextAddr⟩) addr⟩) := by
      unfold vos_co_destroy
      rw [hcache]
      simp only [vos_co_tree_lookup, hdir, vc_rec_fetch, vos_oi_destroy,
        dbtree_delete, hheap]
      norm_num [DER_NONEXIST]
      simp only [vc_rec_free_resolves haddr hheap']
      by_cases hob : cc.vc_obtable = 0 <;> simp [hob]
    refine ⟨by rw [hd], ?_, ?_⟩
    · rw [hd]
      by_cases hob : cc.vc_obtable = 0 <;>
        simp [heapFreeRec, heapFreeOb, hob]
    · rw [hd]
      simp [dirLookup, find?_keyEq_filter_keyNe]

/-- Witness for the amended C3, at concrete inputs: a null address fails
with NotFound; freeing the record at address 1 (object table at 2)
releases both storages without any finalizer invocation; destroying an
uncached, present container finalizes its object table (address 7) and
removes its directory entry. -/
theorem c3_free_on_delete_witness :
    (vc_rec_free ⟨[(1, ⟨List.replicate 16 9, 2, 0⟩)], [2], [], 3⟩ ⟨0⟩
      = (DER_NONEXIST, ⟨[(1, ⟨List.replicate 16 9, 2, 0⟩)], [2], [], 3⟩)) ∧
    ((vc_rec_free ⟨[(1, ⟨List.replicate 16 9, 2, 0⟩)], [2], [], 3⟩ ⟨1⟩).1 = 0 ∧
     heapLookup (vc_rec_free ⟨[(1, ⟨List.replicate 16 9, 2, 0⟩)], [2], [], 3⟩ ⟨1⟩).2 1
       = none ∧
     (vc_rec_free ⟨[(1, ⟨List.replicate 16 9, 2, 0⟩)], [2], [], 3⟩ ⟨1⟩).2.finalized
       = []) ∧
    ((vos_co_destroy 0
        ⟨[], [(List.replicate 16 10, 1)], ⟨[(1, ⟨List.replicate 16 10, 7, 0⟩)], [7], [], 8⟩⟩
        (List.replicate 16 10)).1 = 0 ∧
     7 ∈ (vos_co_destroy 0
        ⟨[], [(List.replicate 16 10, 1)], ⟨[(1, ⟨List.replicate 16 10, 7, 0⟩)], [7], [], 8⟩⟩
        (List.replicate 16 10)).2.heap.finalized ∧
     dirLookup (vos_co_destroy 0
        ⟨[], [(List.replicate 16 10, 1)], ⟨[(1, ⟨List.replicate 16 10, 7, 0⟩)], [7], [], 8⟩⟩
        (List.replicate 16 10)).2.dir (List.replicate 16 10) = none) := by
  have h1 := c3_free_on_delete_amended
    ⟨[(1, ⟨List.replicate 16 9, 2, 0⟩)], [2], [], 3⟩ 1 ⟨List.replicate 16 9, 2, 0⟩
    ⟨[], [(List.replicate 16 10, 1)], ⟨[(1, ⟨List.replicate 16 10, 7, 0⟩)], [7], [], 8⟩⟩
    (List.replicate 16 10) 1 ⟨List.replicate 16 10, 7, 0⟩
  have h2 := h1.2.1 (by decide) (by decide)
  have h3 := h1.2.2 (by decide) (by decide) (by decide) (by decide)
  exact ⟨h1.1, ⟨h2.1, h2.2.1, h2.2.2.2⟩, h3⟩

/-- Claim C4: create on an identifier already present in the directory
fails with AlreadyExists, leaves the whole state unchanged, and the
directory still holds exactly one entry for the identifier. -/
theorem c4_create_duplicate_rejected (f : AllocFaults) (st : VosState)
    (id : UUID) (a : Nat) (hdup : dirLookup st.dir id = some a) :
    vos_co_create f st id = (DER_EXIST, st) ∧
    ((st.dir.filter (fun p => p.1 = id)).length = 1 →
      ((vos_co_create f st id).2.dir.filter (fun p => p.1 = id)).length = 1) := by
  have hstep : vos_co_create f st id = (DER_EXIST, st) := by
    unfold vos_co_create
    simp only [vos_co_tree_lookup, hdup, vc_rec_fetch]
    norm_num
  exact ⟨hstep, fun h1 => by rw [hstep]; exact h1⟩

/-- Witness for C4: creating an already-present identifier on a concrete
one-entry state fails with AlreadyExists and the single entry survives. -/
theorem c4_create_duplicate_witness :
    vos_co_create ⟨false, false, 0⟩
        ⟨[], [(List.replicate 16 4, 1)], ⟨[(1, ⟨List.replicate 16 4, 2, 0⟩)], [2], [], 3⟩⟩
        (List.replicate 16 4)
      = (DER_EXIST,
         ⟨[], [(List.replicate 16 4, 1)], ⟨[(1, ⟨List.replicate 16 4, 2, 0⟩)], [2], [], 3⟩⟩) ∧
    (((vos_co_create ⟨false, false, 0⟩
        ⟨[], [(List.replicate 16 4, 1)], ⟨[(1, ⟨List.replicate 16 4, 2, 0⟩)], [2], [], 3⟩⟩
        (List.replicate 16 4)).2.dir.filter
          (fun p => p.1 = List.replicate 16 4)).length = 1) := by
  have h := c4_create_duplicate_rejected ⟨false, false, 0⟩
    ⟨[], [(List.replicate 16 4, 1)], ⟨[(1, ⟨List.replicate 16 4, 2, 0⟩)], [2], [], 3⟩⟩
    (List.replicate 16 4) 1 (by decide)
  exact ⟨h.1, h.2 (by decide)⟩

/-- Claim C6: when the identifier is cached, open returns success with the
cached handle, the cache holding one more reference to it, and the
durable directory and heap are passed through untouched — the outcome is
the same whatever the durable map contains, so no durable-map lookup or
mutation takes place. -/
theorem c6_open_cache_hit (f : OpenFaults) (cache : Cache) (d : Dir)
    (hp : UmemHeap) (id : UUID) (c1 : Cache)
    (hc : cacheLookup cache id = some c1) :
    vos_co_open f ⟨cache, d, hp⟩ id = (0, some id, ⟨c1, d, hp⟩) ∧
    cacheRef c1 id = cacheRef cache id + 1 := by
  obtain ⟨hc1, hsome⟩ := cacheLookup_eq_some hc
  subst hc1
  constructor
  · unfold vos_co_open
    dsimp only
    rw [hc]
  · exact cacheRef_cacheIncr cache id hsome

/-- Witness for C6: opening a cached identifier on a concrete state
returns it at once with its reference count going from 1 to 2, the
durable components untouched. -/
theorem c6_open_cache_hit_witness :
    vos_co_open ⟨false, 0, 0⟩ ⟨[(List.replicate 16 5, 1)], [], ⟨[], [], [], 1⟩⟩
        (List.replicate 16 5)
      = (0, some (List.replicate 16 5),
         ⟨[(List.replicate 16 5, 2)], [], ⟨[], [], [], 1⟩⟩) ∧
    cacheRef [(List.replicate 16 5, 2)] (List.replicate 16 5)
      = cacheRef [(List.replicate 16 5, 1)] (List.replicate 16 5) + 1 :=
  c6_open_cache_hit ⟨false, 0, 0⟩ [(List.replicate 16 5, 1)] [] ⟨[], [], [], 1⟩
    (List.replicate 16 5) [(List.replicate 16 5, 2)] (by decide)

/-- Claim C8: when the identifier is absent and the directory insert
inside the transaction fails — with any error code at all, injected here
through the initializer, or through either allocation failing — the
transaction is aborted with the fixed ENOMEM cause and the caller
observes its translation, the OutOfMemory error code, never the insert's
original failure kind; the durable state rolls back whole. -/
theorem c8_create_insert_failure_translated (st : VosState) (id : UUID)
    (e : Int) (hmiss : dirLookup st.dir id = none) (he : e ≠ 0) :
    vos_co_create ⟨false, false, e⟩ st id = (DER_NOMEM, st) ∧
    vos_co_create ⟨true, false, 0⟩ st id = (DER_NOMEM, st) ∧
    vos_co_create ⟨false, true, 0⟩ st id = (DER_NOMEM, st) := by
  refine ⟨?_, ?_, ?_⟩ <;>
    · unfold vos_co_create dbtree_update vc_rec_alloc
      simp only [vos_co_tree_lookup, hmiss, umem_tx_errno, daos_errno2der]
      norm_num [DER_NONEXIST, DER_NOMEM, he]

/-- Witness for C8: with the initializer failing with the InvalidArgument
code on an empty concrete state, create still returns OutOfMemory — a
code different from the insert's actual failure kind — and the state is
untouched. -/
theorem c8_create_insert_failure_witness :
    vos_co_create ⟨false, false, DER_INVAL⟩ ⟨[], [], ⟨[], [], [], 1⟩⟩
        (List.replicate 16 6)
      = (DER_NOMEM, ⟨[], [], ⟨[], [], [], 1⟩⟩) ∧
    DER_INVAL ≠ DER_NOMEM :=
  ⟨(c8_create_insert_failure_translated ⟨[], [], ⟨[], [], [], 1⟩⟩
      (List.replicate 16 6) DER_INVAL (by decide) (by decide)).1,
   by decide⟩

/-- Claim C7: probe with no anchor positions the cursor on the directory's
first entry (index 0); probe with an anchor positions it on the first
entry greater-than-or-equal to the anchor: the entry at the returned
position is ≥ the anchor and every earlier entry is strictly below it,
and whenever some entry qualifies the probe does position the cursor. -/
theorem c7_iter_probe_positions (keys : List Nat) (a : Nat) :
    (keys ≠ [] → vos_co_iter_probe keys none = some 0) ∧
    (∀ i, vos_co_iter_probe keys (some a) = some i →
      i < keys.length ∧ a ≤ keys.getD i 0 ∧ ∀ j, j < i → keys.getD j 0 < a) ∧
    ((∃ k ∈ keys, a ≤ k) → vos_co_iter_probe keys (some a) ≠ none) := by
  refine ⟨?_, ?_, ?_⟩
  · intro hne
    simp [vos_co_iter_probe, dbtree_iter_probe, List.length_eq_zero, hne]
  · intro i hi
    simp only [vos_co_iter_probe, dbtree_iter_probe, Option.isNone_some,
      Bool.false_eq_true, if_false] at hi
    by_cases hlt : keys.findIdx (fun k => a ≤ k) < keys.length
    · rw [if_pos hlt] at hi
      have hieq : keys.findIdx (fun k => a ≤ k) = i := Option.some.inj hi
      subst hieq
      have hfi := (List.findIdx_eq hlt).mp rfl
      refine ⟨hlt, ?_, ?_⟩
      · have hgd : keys.getD (keys.findIdx (fun k => a ≤ k)) 0
            = keys.get ⟨keys.findIdx (fun k => a ≤ k), hlt⟩ := by
          simp [List.getD_eq_getElem?_getD, List.getElem?_eq_getElem hlt]
        rw [hgd]
        have hp := hfi.1
        simpa using hp
      · intro j hj
        have hjlen : j < keys.length := Nat.lt_trans hj hlt
        have hnp := hfi.2 j hj
        have hgd : keys.getD j 0 = keys.get ⟨j, hjlen⟩ := by
          simp [List.getD_eq_getElem?_getD, List.getElem?_eq_getElem hjlen]
        rw [hgd]
        have : ¬ a ≤ keys.get ⟨j, hjlen⟩ := by simpa using hnp
        omega
    · rw [if_neg hlt] at hi
      exact absurd hi (by simp)
  · intro hex
    have hlt : keys.findIdx (fun k => a ≤ k) < keys.length :=
      List.findIdx_lt_length_of_exists (by simpa using hex)
    simp [vos_co_iter_probe, dbtree_iter_probe, hlt]

/-- Witness for C7 on the concrete directory [3, 5, 9]: the anchorless
probe lands on the first entry, and probing with anchor 4 lands on index
1, whose entry 5 is the first one ≥ 4. -/
theorem c7_iter_probe_witness :
    vos_co_iter_probe [3, 5, 9] none = some 0 ∧
    (1 < [3, 5, 9].length ∧ 4 ≤ [3, 5, 9].getD 1 0 ∧
      ∀ j, j < 1 → [3, 5, 9].getD j 0 < 4) ∧
    vos_co_iter_probe [3, 5, 9] (some 4) ≠ none := by
  have h := c7_iter_probe_positions [3, 5, 9] 4
  exact ⟨h.1 (by decide), h.2.1 1 (by decide), h.2.2 (by decide)⟩

end VosC
